import Mathlib

set_option maxRecDepth 100000

/-!
Verification of the rainbow-table time-memory-tradeoff harness
(analyze_tradeoff.py and view_table.py).

The harness is embedded shallowly: the external collaborators (the
generation subprocess, the artifact loader, the lookup routine, the hash
function and the random password stream) are parameters of the embedded
functions, and the real-valued measurements (durations, file sizes,
success rates) are modelled as exact rationals.
-/

/-- Configuration constant ALGORITHM from analyze_tradeoff.py. -/
def ALGORITHM : String := "sha1"

/-- Configuration constant CHAIN_LEN from analyze_tradeoff.py. -/
def CHAIN_LEN : Nat := 200

/-- Configuration constant N_CHAINS_LIST from analyze_tradeoff.py: the sweep of
chain counts. -/
def N_CHAINS_LIST : List Nat := [1000, 5000, 10000, 20000, 40000]

/-- Configuration constant NUM_TEST_HASHES from analyze_tradeoff.py: how many
random hashes are tested against each table. -/
def NUM_TEST_HASHES : Nat := 100

/-- Directory in which run_experiment stores the generated tables. -/
def table_dir : String := "generated_tables"

/-- Artifact path derived from the chain count, from line 74 of
analyze_tradeoff.py: os.path.join(table_dir, "table_" + n + "_chains.rt"). -/
def output_file (n_chains : Nat) : String :=
  table_dir ++ "/" ++ "table_" ++ toString n_chains ++ "_chains.rt"

/-- Embedding of generate_test_hashes (analyze_tradeoff.py lines 31 to 56).
The stream of random passwords drawn by the rejection-sampling loop is made
explicit as the list draws; the hash function of the temporary RainbowTable
object is the parameter hash_function. The loop keeps drawing while the
accumulated mapping test_set has fewer than num_hashes entries, inserting a
drawn password keyed by its digest only when the digest is new. Exhausting
the stream before the target count is reached is the divergent case of the
source loop and is returned as none. -/
def generate_test_hashes (hash_function : String → String) (num_hashes : Nat) :
    List String → List (String × String) → Option (List (String × String))
  | [], test_set =>
      if test_set.length < num_hashes then none else some test_set
  | password :: rest, test_set =>
      if test_set.length < num_hashes then
        let hash_hex := hash_function password
        if (test_set.map Prod.fst).contains hash_hex then
          generate_test_hashes hash_function num_hashes rest test_set
        else
          generate_test_hashes hash_function num_hashes rest
            (test_set ++ [(hash_hex, password)])
      else some test_set

/-- Hit classification from the evaluator loop (analyze_tradeoff.py lines
114 to 122): an exactly matching candidate is a hit, a different non-null
candidate is also counted as a hit (hash collision policy), a null candidate
is a miss. -/
def classify_hit (found_password : Option String) (original_password : String) :
    Bool :=
  if found_password = some original_password then true
  else if found_password ≠ none then true
  else false

/-- Hit count accumulated by the evaluator loop over the workload
(analyze_tradeoff.py lines 111 to 123). -/
def count_hits (lookup : String → Option String) :
    List (String × String) → Nat
  | [] => 0
  | (hash_to_crack, original_password) :: rest =>
      (if classify_hit (lookup hash_to_crack) original_password then 1 else 0)
        + count_hits lookup rest

/-- One result record appended by run_experiment per completed sweep value
(analyze_tradeoff.py lines 103 to 108 and 136 to 141). -/
structure ExperimentResult where
  chains : Nat
  file_size_kb : ℚ
  gen_time_s : ℚ
  success_rate : ℚ
deriving DecidableEq, Inhabited

/-- External world seen by run_experiment, indexed by the chain count of the
current sweep value: the exit status of the generation subprocess, the
measured size and duration, the tail-to-head mapping of the loaded artifact,
and the lookup routine of the loaded artifact. -/
structure ExternalEnv where
  gen_exit : Nat → Nat
  file_size_kb : Nat → ℚ
  gen_time_s : Nat → ℚ
  table : Nat → List (String × String)
  lookup : Nat → String → Option String

/-- Embedding of run_experiment (analyze_tradeoff.py lines 59 to 145).
The returned pair is the list of result records appended before control left
the loop, together with the sweep value at which the generation subprocess
exited nonzero (subprocess.run with check set raises there, so the collected
records are not returned to the caller in that case); none means the sweep
completed. A sweep value whose loaded artifact has an empty mapping is
recorded with success rate 0 without consulting the lookup routine, and the
loop continues. Otherwise the hit count over the workload is divided by the
constant NUM_TEST_HASHES and scaled to a percentage. -/
def run_experiment (env : ExternalEnv) (test_set : List (String × String)) :
    List Nat → List ExperimentResult × Option Nat
  | [] => ([], none)
  | n_chains :: rest =>
      if env.gen_exit n_chains ≠ 0 then ([], some n_chains)
      else
        let r : ExperimentResult :=
          if (env.table n_chains).isEmpty then
            { chains := n_chains, file_size_kb := env.file_size_kb n_chains,
              gen_time_s := env.gen_time_s n_chains, success_rate := 0 }
          else
            { chains := n_chains, file_size_kb := env.file_size_kb n_chains,
              gen_time_s := env.gen_time_s n_chains,
              success_rate :=
                ((count_hits (env.lookup n_chains) test_set : ℚ)
                  / (NUM_TEST_HASHES : ℚ)) * 100 }
        (r :: (run_experiment env test_set rest).1,
          (run_experiment env test_set rest).2)

/-- Output of analyze_and_plot: the result records it leaves behind, the
lines it prints, and the plot files it saves. -/
structure RenderOutput where
  results : List ExperimentResult
  printed : List String
  plots_saved : List String
deriving DecidableEq

/-- Markdown row printed for one result record by the summary table. -/
def result_row (r : ExperimentResult) : String :=
  toString r.chains ++ " | " ++ toString r.file_size_kb ++ " | "
    ++ toString r.gen_time_s ++ " | " ++ toString r.success_rate

/-- Embedding of analyze_and_plot (analyze_tradeoff.py lines 147 to 212).
An empty result list prints the notice and saves no plot; otherwise the
summary table is printed and the two plot files are saved. The records are
only read, never written, which the embedding records by returning them
unchanged in the results field. -/
def analyze_and_plot (results : List ExperimentResult) : RenderOutput :=
  if results.isEmpty then
    { results := results, printed := ["No results to analyze."],
      plots_saved := [] }
  else
    { results := results,
      printed := "--- Experiment Summary ---" :: results.map result_row
        ++ ["Saved plot: generation_cost_plot.png",
            "Saved plot: tradeoff_plot.png"],
      plots_saved := ["generation_cost_plot.png", "tradeoff_plot.png"] }

/-- Observable outcome of the top-level entry point of analyze_tradeoff.py:
either the renderer was invoked on the results of a completed sweep, or the
error handler printed a message and the renderer was never invoked. -/
structure MainOutcome where
  reported : Option RenderOutput
  error_msg : Option String
deriving DecidableEq

/-- Embedding of the top-level block of analyze_tradeoff.py (lines 215 to
228): run_experiment is called inside the try block; when it completes, its
results are handed to analyze_and_plot; when it raises (some sweep value in
the second component), the handler prints the error and analyze_and_plot is
never called. -/
def main_flow (env : ExternalEnv) (test_set : List (String × String)) :
    MainOutcome :=
  match (run_experiment env test_set N_CHAINS_LIST).2 with
  | none =>
      { reported :=
          some (analyze_and_plot (run_experiment env test_set N_CHAINS_LIST).1),
        error_msg := none }
  | some _ =>
      { reported := none, error_msg := some "An error occurred" }

/-- Persisted rainbow-table artifact as exposed by the load interface:
metadata fields and the tail-hash to head-password mapping. -/
structure RainbowTable where
  algorithm : String
  charset : String
  min_length : Nat
  max_length : Nat
  chain_length : Nat
  number_of_chains : Nat
  table : List (String × String)
deriving DecidableEq

/-- Observable outcome of view_table.py: printed lines, process exit status,
and whether the table-contents section was rendered. -/
structure ViewOutcome where
  printed : List String
  exit_code : Nat
  rendered_table : Bool
deriving DecidableEq

/-- Lines of the table-contents section of view_table.py (lines 25 to 46). -/
def render_table_lines (rt : RainbowTable) : List String :=
  ["=== Table Parameters ===",
   "  Algorithm: " ++ rt.algorithm,
   "  Charset: " ++ rt.charset,
   "  Min Length: " ++ toString rt.min_length,
   "  Max Length: " ++ toString rt.max_length,
   "  Chain Length: " ++ toString rt.chain_length,
   "  Number of Chains: " ++ toString rt.number_of_chains,
   "=== Table Data (Sample) ===",
   "  Total chains stored: " ++ toString rt.table.length]
  ++ (rt.table.take 10).map (fun p => "    " ++ p.1 ++ " : " ++ p.2)
  ++ (if rt.table.length > 10 then ["  ... (and more)"] else [])

/-- Embedding of view_table.py. The filesystem existence check and the
deserialization routine are parameters. Wrong arity prints usage and exits
with status 1; a missing file prints an error naming the path and exits with
status 1; a load failure prints the error with its detail and the script then
falls off its end, so the process exits with status 0; a successful load
renders the table contents and exits with status 0. -/
def view_table_main (argv : List String) (file_exists : String → Bool)
    (load_from_file : String → Except String RainbowTable) : ViewOutcome :=
  match argv with
  | [_, file_path] =>
      if file_exists file_path = false then
        { printed := ["ERROR: File not found: " ++ file_path],
          exit_code := 1, rendered_table := false }
      else
        match load_from_file file_path with
        | Except.error e =>
            { printed := ["--- Loading table: " ++ file_path ++ " ---",
                          "ERROR: Could not load or read the table file.",
                          "Details: " ++ e],
              exit_code := 0, rendered_table := false }
        | Except.ok rt =>
            { printed := ("--- Loading table: " ++ file_path ++ " ---")
                :: render_table_lines rt,
              exit_code := 0, rendered_table := true }
  | _ =>
      { printed := ["Usage: python3 " ++ argv.headD "" ++ " <table_file.rt>"],
        exit_code := 1, rendered_table := false }

/-- Concrete workload with a single entry, used in witnesses. -/
def ts1 : List (String × String) := [("h1", "p1")]

/-- Concrete environment in which the generation subprocess succeeds for
chain count 1000 and exits with status 2 for every other chain count. -/
def env_fail : ExternalEnv :=
  { gen_exit := fun n => if n = 1000 then 0 else 2,
    file_size_kb := fun _ => 1,
    gen_time_s := fun _ => 1,
    table := fun _ => [("t", "h")],
    lookup := fun _ _ => none }

/-- Concrete environment in which generation always succeeds, the loaded
artifact is nonempty, and every lookup returns the password pw. -/
def env_hit : ExternalEnv :=
  { gen_exit := fun _ => 0,
    file_size_kb := fun _ => 1,
    gen_time_s := fun _ => 1,
    table := fun _ => [("t", "h")],
    lookup := fun _ h => some h }

/-- Concrete environment in which generation always succeeds and the loaded
artifact has an empty mapping. -/
def env_empty : ExternalEnv :=
  { gen_exit := fun _ => 0,
    file_size_kb := fun _ => 2,
    gen_time_s := fun _ => 3,
    table := fun _ => [],
    lookup := fun _ _ => none }

/-- Concrete workload of 200 entries with pairwise distinct digests, as the
generator produces under the identity hash; every lookup in env_hit hits. -/
def ts200 : List (String × String) :=
  (List.range 200).map (fun i => (toString i, toString i))

/-- Concrete workload of 100 entries with pairwise distinct digests, as the
generator produces under the identity hash; every lookup in env_hit hits. -/
def ts100 : List (String × String) :=
  (List.range 100).map (fun i => (toString i, toString i))

/-- Each workload entry contributes at most one hit. -/
theorem count_hits_le (lookup : String → Option String) :
    ∀ ts : List (String × String), count_hits lookup ts ≤ ts.length := by
  intro ts
  induction ts with
  | nil => simp [count_hits]
  | cons e rest ih =>
      obtain ⟨h, p⟩ := e
      simp only [count_hits, List.length_cons]
      split <;> omega

/-- C1: in the evaluator loop, a workload entry whose lookup returns the
exact expected password is counted as a hit, an entry whose lookup returns a
non-null candidate different from the expected password is also counted as a
hit, and an entry whose lookup returns no candidate contributes nothing to
the hit count. -/
theorem evaluator_classification (lookup : String → Option String)
    (h p : String) (rest : List (String × String)) :
    (lookup h = some p →
      count_hits lookup ((h, p) :: rest) = count_hits lookup rest + 1) ∧
    (∀ c, lookup h = some c → c ≠ p →
      count_hits lookup ((h, p) :: rest) = count_hits lookup rest + 1) ∧
    (lookup h = none →
      count_hits lookup ((h, p) :: rest) = count_hits lookup rest) := by
  refine ⟨fun hf => ?_, fun c hf hne => ?_, fun hf => ?_⟩ <;>
    simp [count_hits, classify_hit, hf] <;> omega

/-- Witness for evaluator_classification at concrete lookups: an exact
match, a differing candidate, and a null candidate. -/
theorem evaluator_classification_witness :
    count_hits (fun _ => some "a") [("x", "a")]
      = count_hits (fun _ => some "a") [] + 1 ∧
    count_hits (fun _ => some "b") [("x", "a")]
      = count_hits (fun _ => some "b") [] + 1 ∧
    count_hits (fun _ => none) [("x", "a")]
      = count_hits (fun _ => none) [] :=
  ⟨(evaluator_classification (fun _ => some "a") "x" "a" []).1 rfl,
   (evaluator_classification (fun _ => some "b") "x" "a" []).2.1 "b" rfl
     (by decide),
   (evaluator_classification (fun _ => none) "x" "a" []).2.2 rfl⟩

/-- C4: a sweep value whose artifact mapping is empty is recorded with
success rate exactly 0; the record does not depend on the workload or the
lookup routine (no lookups are performed), no exception is raised at that
value, and the sweep continues with the remaining values. -/
theorem empty_table_zero_rate (env : ExternalEnv)
    (test_set : List (String × String)) (n : Nat) (rest : List Nat)
    (hexit : env.gen_exit n = 0) (hempty : env.table n = []) :
    run_experiment env test_set (n :: rest) =
      ({ chains := n, file_size_kb := env.file_size_kb n,
         gen_time_s := env.gen_time_s n, success_rate := 0 }
        :: (run_experiment env test_set rest).1,
       (run_experiment env test_set rest).2) := by
  simp [run_experiment, hexit, hempty]

/-- Witness for empty_table_zero_rate in the concrete environment with an
empty artifact mapping. -/
theorem empty_table_zero_rate_witness :
    run_experiment env_empty ts1 (1000 :: []) =
      ({ chains := 1000, file_size_kb := env_empty.file_size_kb 1000,
         gen_time_s := env_empty.gen_time_s 1000, success_rate := 0 }
        :: (run_experiment env_empty ts1 []).1,
       (run_experiment env_empty ts1 []).2) :=
  empty_table_zero_rate env_empty ts1 1000 [] rfl rfl

/-- C9: the renderer leaves the result records unchanged, and an empty
result list prints the nothing-to-report notice and saves no plot. -/
theorem render_pure (results : List ExperimentResult) :
    (analyze_and_plot results).results = results ∧
    (results = [] →
      (analyze_and_plot results).printed = ["No results to analyze."] ∧
      (analyze_and_plot results).plots_saved = []) := by
  constructor
  · cases results <;> simp [analyze_and_plot]
  · rintro rfl
    simp [analyze_and_plot]

/-- Witness for render_pure at the empty result list. -/
theorem render_pure_witness :
    (analyze_and_plot []).results = ([] : List ExperimentResult) ∧
    (analyze_and_plot []).printed = ["No results to analyze."] ∧
    (analyze_and_plot []).plots_saved = [] :=
  ⟨(render_pure []).1, (render_pure []).2 rfl⟩

/-- Invariant of the rejection-sampling loop of generate_test_hashes: if the
accumulated mapping has at most the target number of entries, pairwise
distinct digest keys, and every entry keyed by the digest of its password,
then any mapping the loop returns has exactly the target number of entries
and the same two properties. -/
theorem generate_test_hashes_invariant (hf : String → String) (num : Nat) :
    ∀ (draws : List String) (acc ts : List (String × String)),
      acc.length ≤ num → (acc.map Prod.fst).Nodup →
      (∀ e ∈ acc, hf e.2 = e.1) →
      generate_test_hashes hf num draws acc = some ts →
      ts.length = num ∧ (ts.map Prod.fst).Nodup ∧ ∀ e ∈ ts, hf e.2 = e.1 := by
  intro draws
  induction draws with
  | nil =>
      intro acc ts hle hnd hhash heq
      by_cases h : acc.length < num
      · simp [generate_test_hashes, h] at heq
      · simp [generate_test_hashes, h] at heq
        subst heq
        exact ⟨by omega, hnd, hhash⟩
  | cons password rest ih =>
      intro acc ts hle hnd hhash heq
      by_cases h : acc.length < num
      · simp only [generate_test_hashes, if_pos h] at heq
        by_cases hc : (acc.map Prod.fst).contains (hf password)
        · rw [if_pos hc] at heq
          exact ih acc ts hle hnd hhash heq
        · rw [if_neg hc] at heq
          refine ih (acc ++ [(hf password, password)]) ts ?_ ?_ ?_ heq
          · simp
            omega
          · have hmem : hf password ∉ acc.map Prod.fst := by
              simpa using hc
            simp [List.nodup_append, hnd, hmem]
          · intro e he
            rcases List.mem_append.1 he with h1 | h1
            · exact hhash e h1
            · simp at h1
              subst h1
              rfl
      · simp [generate_test_hashes, h] at heq
        subst heq
        exact ⟨by omega, hnd, hhash⟩

/-- C2: whenever the workload generator terminates on a target count N, the
returned mapping has exactly N entries, its digest keys are pairwise
distinct, and each digest is the hash of the password it is mapped to. -/
theorem generator_contract (hf : String → String) (num : Nat)
    (draws : List String) (ts : List (String × String)) (hpos : 0 < num)
    (hterm : generate_test_hashes hf num draws [] = some ts) :
    ts.length = num ∧ (ts.map Prod.fst).Nodup ∧ ∀ e ∈ ts, hf e.2 = e.1 :=
  generate_test_hashes_invariant hf num draws [] ts (by simp) (by simp)
    (by simp) hterm

/-- Witness for generator_contract: the identity hash over a two-element
draw stream produces exactly two entries with the stated properties. -/
theorem generator_contract_witness :
    ([("a", "a"), ("b", "b")] : List (String × String)).length = 2 ∧
    (([("a", "a"), ("b", "b")] : List (String × String)).map Prod.fst).Nodup ∧
    ∀ e ∈ ([("a", "a"), ("b", "b")] : List (String × String)),
      (fun s => s) e.2 = e.1 :=
  generator_contract (fun s => s) 2 ["a", "b"] [("a", "a"), ("b", "b")]
    (by decide) (by decide)

/-- C7: the driver appends at most one result record per sweep value, in
sweep order: the chain counts of the collected records always form a prefix
of the sweep sequence, and exactly one record per value is present when the
sweep completes without an invocation failure. -/
theorem one_record_per_sweep_value (env : ExternalEnv)
    (test_set : List (String × String)) (sweep : List Nat) :
    (∃ k, (run_experiment env test_set sweep).1.map (fun r => r.chains)
        = sweep.take k) ∧
    ((run_experiment env test_set sweep).2 = none →
      (run_experiment env test_set sweep).1.map (fun r => r.chains) = sweep) := by
  induction sweep with
  | nil => exact ⟨⟨0, by simp [run_experiment]⟩, by simp [run_experiment]⟩
  | cons n rest ih =>
      obtain ⟨⟨k, hk⟩, hcomp⟩ := ih
      by_cases h : env.gen_exit n = 0
      · constructor
        · refine ⟨k + 1, ?_⟩
          by_cases he : (env.table n).isEmpty <;>
            simp [run_experiment, h, he, hk]
        · intro hnone
          have h2 : (run_experiment env test_set rest).2 = none := by
            by_cases he : (env.table n).isEmpty <;>
              simpa [run_experiment, h, he] using hnone
          by_cases he : (env.table n).isEmpty <;>
            simp [run_experiment, h, he, hcomp h2]
      · refine ⟨⟨0, by simp [run_experiment, h]⟩, fun hnone => ?_⟩
        simp [run_experiment, h] at hnone

/-- Witness for one_record_per_sweep_value: in an environment where every
sweep value completes, the chain counts of the records equal the sweep. -/
theorem one_record_per_sweep_value_witness :
    (run_experiment env_hit ts1 N_CHAINS_LIST).1.map (fun r => r.chains)
      = N_CHAINS_LIST :=
  (one_record_per_sweep_value env_hit ts1 N_CHAINS_LIST).2 (by decide)

/-- C8: the artifact path is a function of the chain count alone, and on any
two distinct chain counts of the sweep it yields distinct paths. -/
theorem output_file_injective_on_sweep (m n : Nat) (hm : m ∈ N_CHAINS_LIST)
    (hn : n ∈ N_CHAINS_LIST) (hne : m ≠ n) :
    output_file m ≠ output_file n := by
  fin_cases hm <;> fin_cases hn <;> first
    | exact absurd rfl hne
    | decide

/-- Witness for output_file_injective_on_sweep at the first two sweep
values. -/
theorem output_file_injective_on_sweep_witness :
    output_file 1000 ≠ output_file 5000 :=
  output_file_injective_on_sweep 1000 5000 (by decide) (by decide) (by decide)

/-- Counterexample to C3: in the concrete environment env_fail the sweep
value 1000 completes and appends one record, the generation subprocess then
exits with status 2 at sweep value 5000, and the top-level handler reports
nothing: the record collected for the prior sweep value is never passed to
the renderer. -/
theorem sweep_abort_counterexample :
    (run_experiment env_fail ts1 N_CHAINS_LIST).1.length = 1 ∧
    (run_experiment env_fail ts1 N_CHAINS_LIST).2 = some 5000 ∧
    (main_flow env_fail ts1).reported = none := by
  refine ⟨by decide, by decide, ?_⟩
  simp [main_flow, show (run_experiment env_fail ts1 N_CHAINS_LIST).2
    = some 5000 from by decide]

/-- C3 as amended: a nonzero exit status at a sweep value makes
run_experiment raise at that value, so no result is produced for it or any
later value; the top-level handler then prints the error message and the
renderer receives nothing, so the records collected for prior sweep values
are discarded rather than reported. -/
theorem sweep_abort_amended (env : ExternalEnv)
    (test_set : List (String × String)) :
    (∀ n rest, env.gen_exit n ≠ 0 →
      run_experiment env test_set (n :: rest) = ([], some n)) ∧
    (∀ m, (run_experiment env test_set N_CHAINS_LIST).2 = some m →
      (main_flow env test_set).reported = none ∧
      (main_flow env test_set).error_msg = some "An error occurred") := by
  constructor
  · intro n rest hn
    simp [run_experiment, hn]
  · intro m hm
    simp [main_flow, hm]

/-- Witness for sweep_abort_amended in the environment env_fail, where the
subprocess exits with status 2 at sweep value 5000. -/
theorem sweep_abort_amended_witness :
    run_experiment env_fail ts1 (5000 :: []) = ([], some 5000) ∧
    (main_flow env_fail ts1).reported = none ∧
    (main_flow env_fail ts1).error_msg = some "An error occurred" :=
  ⟨(sweep_abort_amended env_fail ts1).1 5000 [] (by decide),
   (sweep_abort_amended env_fail ts1).2 5000 (by decide)⟩

/-- Counterexample to C5: on the 200-entry workload ts200 every lookup in
env_hit hits, so the recorded success rate is 200, which exceeds 100 and
differs from hits divided by the evaluated count (200) times 100. -/
theorem success_rate_counterexample :
    (run_experiment env_hit ts200 (1000 :: [])).1.headI.success_rate = 200 ∧
    ¬ (run_experiment env_hit ts200 (1000 :: [])).1.headI.success_rate ≤ 100 ∧
    (run_experiment env_hit ts200 (1000 :: [])).1.headI.success_rate ≠
      ((count_hits (env_hit.lookup 1000) ts200 : ℚ) / (ts200.length : ℚ))
        * 100 := by
  have hc : count_hits (env_hit.lookup 1000) ts200 = 200 := by decide
  have hl : ts200.length = 200 := by decide
  have hhead : (run_experiment env_hit ts200 (1000 :: [])).1.headI.success_rate
      = ((count_hits (env_hit.lookup 1000) ts200 : ℚ)
          / (NUM_TEST_HASHES : ℚ)) * 100 := rfl
  refine ⟨?_, ?_, ?_⟩
  · rw [hhead, hc]
    norm_num [NUM_TEST_HASHES]
  · rw [hhead, hc]
    norm_num [NUM_TEST_HASHES]
  · rw [hhead, hc, hl]
    norm_num [NUM_TEST_HASHES]

/-- C5 as amended: when the evaluated workload has exactly NUM_TEST_HASHES
entries, as in the main flow of the program, the recorded success rate
equals the hit count divided by the evaluated count times 100 and lies in
the closed interval from 0 to 100. -/
theorem success_rate_formula_and_range (env : ExternalEnv)
    (test_set : List (String × String)) (n : Nat) (rest : List Nat)
    (hlen : test_set.length = NUM_TEST_HASHES)
    (hexit : env.gen_exit n = 0) (hne : ¬ (env.table n).isEmpty) :
    run_experiment env test_set (n :: rest) =
      ({ chains := n, file_size_kb := env.file_size_kb n,
         gen_time_s := env.gen_time_s n,
         success_rate := ((count_hits (env.lookup n) test_set : ℚ)
           / (NUM_TEST_HASHES : ℚ)) * 100 }
        :: (run_experiment env test_set rest).1,
       (run_experiment env test_set rest).2) ∧
    ((count_hits (env.lookup n) test_set : ℚ) / (NUM_TEST_HASHES : ℚ)) * 100
      = ((count_hits (env.lookup n) test_set : ℚ) / (test_set.length : ℚ))
          * 100 ∧
    0 ≤ ((count_hits (env.lookup n) test_set : ℚ) / (NUM_TEST_HASHES : ℚ))
        * 100 ∧
    ((count_hits (env.lookup n) test_set : ℚ) / (NUM_TEST_HASHES : ℚ)) * 100
      ≤ 100 := by
  have hcast : (NUM_TEST_HASHES : ℚ) = 100 := by norm_num [NUM_TEST_HASHES]
  have hle : count_hits (env.lookup n) test_set ≤ NUM_TEST_HASHES := by
    rw [← hlen]
    exact count_hits_le _ _
  have hvalue : ((count_hits (env.lookup n) test_set : ℚ)
      / (NUM_TEST_HASHES : ℚ)) * 100
      = (count_hits (env.lookup n) test_set : ℚ) := by
    rw [hcast, div_mul_cancel₀]
    norm_num
  refine ⟨?_, by rw [hlen], ?_, ?_⟩
  · simp [run_experiment, hexit, hne]
  · rw [hvalue]
    positivity
  · rw [hvalue]
    have : (count_hits (env.lookup n) test_set : ℚ) ≤ (NUM_TEST_HASHES : ℚ) :=
      by exact_mod_cast hle
    calc (count_hits (env.lookup n) test_set : ℚ)
        ≤ (NUM_TEST_HASHES : ℚ) := this
      _ = 100 := hcast

/-- Witness for success_rate_formula_and_range on the 100-entry workload
ts100 in the environment env_hit. -/
theorem success_rate_formula_and_range_witness :
    (run_experiment env_hit ts100 (1000 :: []) =
      ({ chains := 1000, file_size_kb := env_hit.file_size_kb 1000,
         gen_time_s := env_hit.gen_time_s 1000,
         success_rate := ((count_hits (env_hit.lookup 1000) ts100 : ℚ)
           / (NUM_TEST_HASHES : ℚ)) * 100 }
        :: (run_experiment env_hit ts100 []).1,
       (run_experiment env_hit ts100 []).2)) ∧
    ((count_hits (env_hit.lookup 1000) ts100 : ℚ) / (NUM_TEST_HASHES : ℚ))
        * 100
      = ((count_hits (env_hit.lookup 1000) ts100 : ℚ) / (ts100.length : ℚ))
          * 100 ∧
    0 ≤ ((count_hits (env_hit.lookup 1000) ts100 : ℚ) / (NUM_TEST_HASHES : ℚ))
        * 100 ∧
    ((count_hits (env_hit.lookup 1000) ts100 : ℚ) / (NUM_TEST_HASHES : ℚ))
        * 100 ≤ 100 :=
  success_rate_formula_and_range env_hit ts100 1000 [] (by decide) rfl
    (by decide)

/-- C10: the success-rate denominator is the module constant
NUM_TEST_HASHES, equal to 100, regardless of the size of the workload
passed in, and a hit count above the constant makes the recorded rate
exceed 100. -/
theorem denominator_is_constant (env : ExternalEnv)
    (test_set : List (String × String)) (n : Nat) (rest : List Nat)
    (hexit : env.gen_exit n = 0) (hne : ¬ (env.table n).isEmpty) :
    NUM_TEST_HASHES = 100 ∧
    (run_experiment env test_set (n :: rest)).1.headI.success_rate =
      ((count_hits (env.lookup n) test_set : ℚ) / (NUM_TEST_HASHES : ℚ))
        * 100 ∧
    (NUM_TEST_HASHES < count_hits (env.lookup n) test_set →
      100 < (run_experiment env test_set (n :: rest)).1.headI.success_rate) := by
  have hcast : (NUM_TEST_HASHES : ℚ) = 100 := by norm_num [NUM_TEST_HASHES]
  have hhead : (run_experiment env test_set (n :: rest)).1.headI.success_rate
      = ((count_hits (env.lookup n) test_set : ℚ) / (NUM_TEST_HASHES : ℚ))
          * 100 := by
    simp [run_experiment, hexit, hne]
  refine ⟨rfl, hhead, fun hgt => ?_⟩
  rw [hhead, hcast, div_mul_cancel₀]
  · have : (100 : ℚ) < (count_hits (env.lookup n) test_set : ℚ) := by
      exact_mod_cast show (NUM_TEST_HASHES : ℕ) < _ from hgt
    exact this
  · norm_num

/-- Witness for denominator_is_constant on the oversized workload ts200,
where the recorded rate exceeds 100. -/
theorem denominator_is_constant_witness :
    NUM_TEST_HASHES = 100 ∧
    (run_experiment env_hit ts200 (1000 :: [])).1.headI.success_rate =
      ((count_hits (env_hit.lookup 1000) ts200 : ℚ) / (NUM_TEST_HASHES : ℚ))
        * 100 ∧
    100 < (run_experiment env_hit ts200 (1000 :: [])).1.headI.success_rate :=
  ⟨(denominator_is_constant env_hit ts200 1000 [] rfl (by decide)).1,
   (denominator_is_constant env_hit ts200 1000 [] rfl (by decide)).2.1,
   (denominator_is_constant env_hit ts200 1000 [] rfl (by decide)).2.2
     (by decide)⟩

/-- Counterexample to C6: when the file exists but deserialization fails,
view_table.py prints the error and then falls off the end of the script, so
the process exits with status 0, not a nonzero status as claimed. -/
theorem view_exit_status_counterexample :
    (view_table_main ["view_table.py", "f.rt"] (fun _ => true)
      (fun _ => Except.error "bad")).exit_code = 0 ∧
    (view_table_main ["view_table.py", "f.rt"] (fun _ => true)
      (fun _ => Except.error "bad")).rendered_table = false := by
  exact ⟨rfl, rfl⟩

/-- C6 as amended: wrong arity prints usage and exits with status 1; a
missing file prints an error naming the failing path and exits with status
1; a load failure prints the error with its detail and renders no table
contents but the process exits with status 0. No table contents are
rendered in any of the three cases. -/
theorem view_table_error_handling (argv : List String)
    (file_exists : String → Bool)
    (load_from_file : String → Except String RainbowTable) :
    (argv.length ≠ 2 →
      (view_table_main argv file_exists load_from_file).exit_code = 1 ∧
      ("Usage: python3 " ++ argv.headD "" ++ " <table_file.rt>")
        ∈ (view_table_main argv file_exists load_from_file).printed ∧
      (view_table_main argv file_exists load_from_file).rendered_table
        = false) ∧
    (∀ prog file_path, argv = [prog, file_path] →
      file_exists file_path = false →
      (view_table_main argv file_exists load_from_file).exit_code = 1 ∧
      ("ERROR: File not found: " ++ file_path)
        ∈ (view_table_main argv file_exists load_from_file).printed ∧
      (view_table_main argv file_exists load_from_file).rendered_table
        = false) ∧
    (∀ prog file_path e, argv = [prog, file_path] →
      file_exists file_path = true →
      load_from_file file_path = Except.error e →
      (view_table_main argv file_exists load_from_file).exit_code = 0 ∧
      ("Details: " ++ e)
        ∈ (view_table_main argv file_exists load_from_file).printed ∧
      (view_table_main argv file_exists load_from_file).rendered_table
        = false) := by
  refine ⟨fun hlen => ?_, fun prog file_path ha hfe => ?_,
    fun prog file_path e ha hfe hl => ?_⟩
  · match argv with
    | [] => exact ⟨rfl, by simp [view_table_main], rfl⟩
    | [a] => exact ⟨rfl, by simp [view_table_main], rfl⟩
    | [a, b] => simp at hlen
    | a :: b :: c :: rest => exact ⟨rfl, by simp [view_table_main], rfl⟩
  · subst ha
    simp [view_table_main, hfe]
  · subst ha
    simp [view_table_main, hfe, hl]

/-- Witness for view_table_error_handling: the three error cases at
concrete arguments. -/
theorem view_table_error_handling_witness :
    ((view_table_main ["view_table.py"] (fun _ => true)
        (fun _ => Except.error "bad")).exit_code = 1 ∧
      ("Usage: python3 " ++ (["view_table.py"] : List String).headD ""
          ++ " <table_file.rt>")
        ∈ (view_table_main ["view_table.py"] (fun _ => true)
            (fun _ => Except.error "bad")).printed ∧
      (view_table_main ["view_table.py"] (fun _ => true)
        (fun _ => Except.error "bad")).rendered_table = false) ∧
    ((view_table_main ["view_table.py", "g.rt"] (fun _ => false)
        (fun _ => Except.error "bad")).exit_code = 1 ∧
      ("ERROR: File not found: " ++ "g.rt")
        ∈ (view_table_main ["view_table.py", "g.rt"] (fun _ => false)
            (fun _ => Except.error "bad")).printed ∧
      (view_table_main ["view_table.py", "g.rt"] (fun _ => false)
        (fun _ => Except.error "bad")).rendered_table = false) ∧
    ((view_table_main ["view_table.py", "f.rt"] (fun _ => true)
        (fun _ => Except.error "corrupt")).exit_code = 0 ∧
      ("Details: " ++ "corrupt")
        ∈ (view_table_main ["view_table.py", "f.rt"] (fun _ => true)
            (fun _ => Except.error "corrupt")).printed ∧
      (view_table_main ["view_table.py", "f.rt"] (fun _ => true)
        (fun _ => Except.error "corrupt")).rendered_table = false) :=
  ⟨(view_table_error_handling ["view_table.py"] (fun _ => true)
      (fun _ => Except.error "bad")).1 (by decide),
   (view_table_error_handling ["view_table.py", "g.rt"] (fun _ => false)
      (fun _ => Except.error "bad")).2.1 "view_table.py" "g.rt" rfl rfl,
   (view_table_error_handling ["view_table.py", "f.rt"] (fun _ => true)
      (fun _ => Except.error "corrupt")).2.2 "view_table.py" "f.rt" "corrupt"
     rfl rfl rfl⟩
